import Mathlib

/-!
# Verification of the speech-recognition session controller

Shallow embedding of the React component in `src/app.py`
(`SpeechRecognitionApp`).  The component's state hooks become the fields of
`AppState`; each handler function of the component becomes a state
transformer.  External effects (the recognizer object, the file download,
the clipboard) are modelled as explicit outputs:

* `recognitionRef.current` is modelled by the boolean `hasRecognizer`
  (whether the ref is non-null) — the only property of the ref the
  component's control flow ever inspects (`if (recognitionRef.current)`).
* each invocation of `recognition.start()` increments `startedCount`, so
  that "no new recognition call was started" is visible in the state.
* the browser firing `onstart` right after a successful
  `recognition.start()` is folded into `startRecording` (the handler sets
  `isRecording` and the listening status); the other recognizer events
  (`onresult`, `onerror`, `onend`) are separate transformers invoked by
  the environment.
* `saveToFile` takes the clock reading `new Date().toISOString()` as an
  explicit input string and returns the would-be download as
  `(filename, bytes)`; `copyToClipboard` returns the text handed to
  `navigator.clipboard.writeText`.

The component's buttons carry `disabled` gates (`disabled={isRecording}`
on Start, `disabled={!isRecording}` on Pause and Stop, lines 168–191 of
the source); a disabled button never fires its `onClick`, so the
click-level operations `startClick`, `pauseClick`, `stopClick` compose
the gate with the handler.  They are the only call sites of
`startRecording`, `pauseRecording`, `stopRecording` in the program
(besides the internal resume call inside `pauseRecording`).
-/

namespace SpeechReco

/-- The React component state: one field per `useState`/`useRef` hook of
`SpeechRecognitionApp` (src/app.py lines 5–11), plus `startedCount`
instrumenting how many times `recognition.start()` has been invoked. -/
structure AppState where
  transcribedText : String
  isRecording : Bool
  isPaused : Bool
  selectedLanguage : String
  selectedAPI : String
  status : String
  hasRecognizer : Bool
  startedCount : Nat
deriving Repr, DecidableEq

/-- Initial hook values (src/app.py lines 5–11): empty transcript, not
recording, not paused, `en-US`, `web` backend, empty status, null ref. -/
def initState : AppState :=
  { transcribedText := ""
    isRecording := false
    isPaused := false
    selectedLanguage := "en-US"
    selectedAPI := "web"
    status := ""
    hasRecognizer := false
    startedCount := 0 }

/-- The spec's `recordingState`, derived from the two booleans the code
keeps: the UI shows the PAUSED banner whenever `isPaused` and the
ACTIVE banner whenever `isRecording` (src/app.py lines 205–215). -/
inductive RecState where
  | Idle
  | Recording
  | Paused
deriving Repr, DecidableEq

def recordingState (s : AppState) : RecState :=
  if s.isPaused then RecState.Paused
  else if s.isRecording then RecState.Recording
  else RecState.Idle

/-- `recognition.onstart` (src/app.py lines 36–39): marks recording
active and shows the listening status. -/
def handleStart (s : AppState) : AppState :=
  { s with isRecording := true, status := "🎤 Listening..." }

/-- `recognition.onend` (src/app.py lines 60–63): clears the recording
flag and reports that recording stopped. -/
def handleEnd (s : AppState) : AppState :=
  { s with isRecording := false, status := "✅ Recording stopped" }

/-- `recognition.onerror` (src/app.py lines 56–58): surfaces the error
kind in the status message; touches nothing else. -/
def handleError (e : String) (s : AppState) : AppState :=
  { s with status := "❌ Error: " ++ e }

/-- One entry of `event.results`: the transcript of alternative 0
(`event.results[i][0].transcript`) together with `event.results[i].isFinal`. -/
structure SpeechRes where
  transcript : String
  isFinal : Bool
deriving Repr, DecidableEq

/-- A recognition result event: `event.resultIndex` and `event.results`. -/
structure RecEvent where
  resultIndex : Nat
  results : List SpeechRes
deriving Repr, DecidableEq

/-- The loop body of `recognition.onresult` (src/app.py lines 42–50):
walks the results from `resultIndex` on, appending `" " + transcript` to
the accumulated text for final results and concatenating interim text
otherwise.  Returns (new transcript, interim preview). -/
def processResults (rs : List SpeechRes) (t interim : String) : String × String :=
  match rs with
  | [] => (t, interim)
  | r :: rest =>
      if r.isFinal then processResults rest (t ++ " " ++ r.transcript) interim
      else processResults rest t (interim ++ r.transcript)

/-- `recognition.onresult` (src/app.py lines 41–54): processes the slice
of results from `event.resultIndex`; if any interim text accumulated
(JS truthiness: a non-empty string), the status shows the preview. -/
def handleResult (ev : RecEvent) (s : AppState) : AppState :=
  let p := processResults (ev.results.drop ev.resultIndex) s.transcribedText ""
  { s with
      transcribedText := p.1
      status := if p.2 ≠ "" then "🎤 Listening... \"" ++ p.2 ++ "\"" else s.status }

/-- `startRecording` (src/app.py lines 23–70) on a browser that supports
`SpeechRecognition`: builds a recognizer, stores it in the ref, and calls
`recognition.start()`, whereupon the browser fires `onstart`
(`handleStart`).  The unsupported-browser and exception branches only set
an error status and are not needed by any claim. -/
def startRecording (s : AppState) : AppState :=
  handleStart { s with hasRecognizer := true, startedCount := s.startedCount + 1 }

/-- `stopRecording` (src/app.py lines 72–78): only if the ref is non-null,
calls `.stop()` on the recognizer and clears both flags. -/
def stopRecording (s : AppState) : AppState :=
  if s.hasRecognizer then { s with isRecording := false, isPaused := false }
  else s

/-- `pauseRecording` (src/app.py lines 80–92): only if the ref is
non-null; when already paused it aborts, restarts via `startRecording`
and clears the paused flag (resume), otherwise it aborts, sets the paused
flag and shows the paused status. -/
def pauseRecording (s : AppState) : AppState :=
  if s.hasRecognizer then
    if s.isPaused then { startRecording s with isPaused := false }
    else { s with isPaused := true, status := "⏸️ Paused" }
  else s

/-- `clearText` (src/app.py lines 94–97). -/
def clearText (s : AppState) : AppState :=
  { s with transcribedText := "", status := "" }

/-- `copyToClipboard` (src/app.py lines 116–119): second component is the
text handed to `navigator.clipboard.writeText`. -/
def copyToClipboard (s : AppState) : AppState × String :=
  ({ s with status := "📋 Copied to clipboard!" }, s.transcribedText)

/-- The whitespace class of JavaScript `String.prototype.trim`
(ECMAScript WhiteSpace ∪ LineTerminator: tab, LF, VT, FF, CR, space,
NBSP, the Unicode space separators, LS, PS, ZWNBSP). -/
def isJsWhitespace (c : Char) : Bool :=
  c.toNat = 9 ∨ c.toNat = 10 ∨ c.toNat = 11 ∨ c.toNat = 12 ∨ c.toNat = 13 ∨
  c.toNat = 32 ∨ c.toNat = 160 ∨ c.toNat = 0x1680 ∨
  (0x2000 ≤ c.toNat ∧ c.toNat ≤ 0x200A) ∨
  c.toNat = 0x2028 ∨ c.toNat = 0x2029 ∨ c.toNat = 0x202F ∨
  c.toNat = 0x205F ∨ c.toNat = 0x3000 ∨ c.toNat = 0xFEFF

/-- JavaScript `String.prototype.trim`: strip leading and trailing
whitespace. -/
def jsTrim (s : String) : String :=
  String.mk (((s.data.dropWhile isJsWhitespace).reverse.dropWhile isJsWhitespace).reverse)

/-- UTF-8 encoding of one code point, as the Blob / file APIs serialize
text. -/
def utf8EncodeChar (c : Char) : List Nat :=
  let n := c.toNat
  if n < 0x80 then [n]
  else if n < 0x800 then [0xC0 + n / 0x40, 0x80 + n % 0x40]
  else if n < 0x10000 then
    [0xE0 + n / 0x1000, 0x80 + (n / 0x40) % 0x40, 0x80 + n % 0x40]
  else
    [0xF0 + n / 0x40000, 0x80 + (n / 0x1000) % 0x40,
     0x80 + (n / 0x40) % 0x40, 0x80 + n % 0x40]

/-- UTF-8 encoding of a string: the byte content of
`new Blob([text], { type: 'text/plain' })`. -/
def utf8Encode (s : String) : List Nat :=
  (s.data.map utf8EncodeChar).flatten

/-- `c => c == ':' ? '-' : c`, the effect of `.replace(/:/g, '-')` on one
character. -/
def colonToDash (c : Char) : Char :=
  if c = ':' then '-' else c

/-- `iso.slice(0, 19).replace(/:/g, '-')` (src/app.py line 108) applied
to the clock reading `iso = new Date().toISOString()`. -/
def jsTimestamp (iso : String) : String :=
  String.mk ((iso.data.take 19).map colonToDash)

/-- `saveToFile` (src/app.py lines 99–114): with a blank (empty after
trim) transcript, sets the warning status and produces nothing;
otherwise produces the download `(filename, UTF-8 bytes of the
transcript)` and the saved status.  `iso` is the clock reading
`new Date().toISOString()`. -/
def saveToFile (iso : String) (s : AppState) : AppState × Option (String × List Nat) :=
  if jsTrim s.transcribedText = "" then
    ({ s with status := "⚠️ No text to save" }, none)
  else
    ({ s with status := "✅ File saved!" },
     some ("transcription_" ++ jsTimestamp iso ++ ".txt", utf8Encode s.transcribedText))

/-- One character of a filename pattern: a literal character or a `\d`
digit class. -/
inductive PatC where
  | lit (c : Char)
  | digit
deriving Repr, DecidableEq

/-- Match a character-level pattern against a character list, requiring
the whole list to be consumed. -/
def matchPatChars : List PatC → List Char → Bool
  | [], cs => cs.isEmpty
  | PatC.lit a :: ps, c :: cs => c = a && matchPatChars ps cs
  | PatC.digit :: ps, c :: cs => c.isDigit && matchPatChars ps cs
  | _ :: _, [] => false

/-- Literal fragment of a pattern. -/
def litPat (s : String) : List PatC := s.data.map PatC.lit

/-- `\d{n}` fragment of a pattern. -/
def digitsPat (n : Nat) : List PatC := List.replicate n PatC.digit

/-- Whether a filename matches a pattern (anchored at both ends). -/
def matchesPattern (ps : List PatC) (f : String) : Bool := matchPatChars ps f.data

/-- The claim's filename pattern `transcription_\d\x7b8\x7d_\d\x7b6\x7d\.txt`
(eight date digits, underscore, six time digits). -/
def claimPattern : List PatC :=
  litPat "transcription_" ++ digitsPat 8 ++ [PatC.lit '_'] ++ digitsPat 6 ++
    litPat ".txt"

/-- The filename pattern the code actually produces,
`transcription_\d\x7b4\x7d-\d\x7b2\x7d-\d\x7b2\x7dT\d\x7b2\x7d-\d\x7b2\x7d-\d\x7b2\x7d\.txt`:
an ISO-8601 UTC timestamp truncated to seconds with colons replaced by
hyphens. -/
def codePattern : List PatC :=
  litPat "transcription_" ++ digitsPat 4 ++ [PatC.lit '-'] ++ digitsPat 2 ++
    [PatC.lit '-'] ++ digitsPat 2 ++ [PatC.lit 'T'] ++ digitsPat 2 ++
    [PatC.lit '-'] ++ digitsPat 2 ++ [PatC.lit '-'] ++ digitsPat 2 ++
    litPat ".txt"

/-- Click on the Start button (src/app.py lines 168–174): the button is
`disabled={isRecording}`, so the click reaches `startRecording` only when
not recording. -/
def startClick (s : AppState) : AppState :=
  if s.isRecording then s else startRecording s

/-- Click on the Pause/Resume button (src/app.py lines 176–183):
`disabled={!isRecording}`. -/
def pauseClick (s : AppState) : AppState :=
  if s.isRecording then pauseRecording s else s

/-- Click on the Stop button (src/app.py lines 185–191):
`disabled={!isRecording}`. -/
def stopClick (s : AppState) : AppState :=
  if s.isRecording then stopRecording s else s

/-- The recording-control actions a user can take. -/
inductive ClickOp where
  | start
  | pause
  | stop
deriving Repr, DecidableEq

def clickStep (c : ClickOp) (s : AppState) : AppState :=
  match c with
  | ClickOp.start => startClick s
  | ClickOp.pause => pauseClick s
  | ClickOp.stop => stopClick s

/-- States reachable from the initial state by sequences of
start/pause/stop actions. -/
inductive ClickReachable : AppState → Prop where
  | init : ClickReachable initState
  | step (c : ClickOp) {s : AppState} :
      ClickReachable s → ClickReachable (clickStep c s)

/-! ## Supporting lemmas -/

/-- Processing a result list with no final entry never changes the
accumulated transcript. -/
theorem processResults_fst_of_no_final (rs : List SpeechRes) :
    ∀ t interim, (∀ r ∈ rs, r.isFinal = false) →
      (processResults rs t interim).1 = t := by
  induction rs with
  | nil => intro t interim _; rfl
  | cons r rest ih =>
      intro t interim h
      have hr : r.isFinal = false := h r (List.mem_cons_self r rest)
      have hrest : ∀ x ∈ rest, x.isFinal = false := fun x hx =>
        h x (List.mem_cons_of_mem r hx)
      simp [processResults, hr, ih _ _ hrest]

/-- Trimming a string of whitespace characters yields the empty string. -/
theorem jsTrim_eq_empty_of_whitespace (s : String)
    (h : ∀ c ∈ s.data, isJsWhitespace c = true) :
    jsTrim s = "" := by
  unfold jsTrim
  have h1 : s.data.dropWhile isJsWhitespace = [] :=
    List.dropWhile_eq_nil_iff.mpr fun x hx => by simp [h x hx]
  simp [h1]

/-- A literal pattern fragment consumes exactly its own characters. -/
theorem matchPatChars_lit_append (l : List Char) (ps : List PatC)
    (cs : List Char) :
    matchPatChars (l.map PatC.lit ++ ps) (l ++ cs) = matchPatChars ps cs := by
  induction l with
  | nil => rfl
  | cons c rest ih => simp [matchPatChars, ih]

/-- A digit-class fragment consumes any run of digits of the right
length. -/
theorem matchPatChars_digits_append (ds : List Char) (ps : List PatC)
    (cs : List Char) (h : ∀ c ∈ ds, c.isDigit = true) :
    matchPatChars (digitsPat ds.length ++ ps) (ds ++ cs) = matchPatChars ps cs := by
  induction ds with
  | nil => rfl
  | cons c rest ih =>
      have hc : c.isDigit = true := h c (List.mem_cons_self c rest)
      have hrest : ∀ x ∈ rest, x.isDigit = true := fun x hx =>
        h x (List.mem_cons_of_mem c hx)
      simp [digitsPat, List.replicate_succ, matchPatChars, hc]
      simpa [digitsPat] using ih hrest

/-! ## Claims -/

/-- C1: appending a final result with text `t` appends `" " ++ t` to the
transcript: from an empty transcript, a final `"hello"` yields
`" hello"`, and a subsequent final `"world"` yields `" hello world"`. -/
theorem append_final_result_from_empty (s : AppState)
    (h : s.transcribedText = "") :
    (handleResult ⟨0, [⟨"hello", true⟩]⟩ s).transcribedText = " hello" ∧
    (handleResult ⟨0, [⟨"world", true⟩]⟩
        (handleResult ⟨0, [⟨"hello", true⟩]⟩ s)).transcribedText
      = " hello world" := by
  simp [handleResult, processResults, h]

theorem append_final_result_from_empty_witness :
    initState.transcribedText = "" ∧
    (handleResult ⟨0, [⟨"hello", true⟩]⟩ initState).transcribedText = " hello" ∧
    (handleResult ⟨0, [⟨"world", true⟩]⟩
        (handleResult ⟨0, [⟨"hello", true⟩]⟩ initState)).transcribedText
      = " hello world" :=
  ⟨rfl, append_final_result_from_empty initState rfl⟩

/-- C4: an `onresult` event whose processed slice contains only
non-final results leaves every field except `status` unchanged:
transcript, recording flags, language, backend and the recognizer
instrumentation are untouched. -/
theorem interim_results_only_touch_status (ev : RecEvent) (s : AppState)
    (h : ∀ r ∈ ev.results.drop ev.resultIndex, r.isFinal = false) :
    (handleResult ev s).transcribedText = s.transcribedText ∧
    (handleResult ev s).isRecording = s.isRecording ∧
    (handleResult ev s).isPaused = s.isPaused ∧
    (handleResult ev s).selectedLanguage = s.selectedLanguage ∧
    (handleResult ev s).selectedAPI = s.selectedAPI ∧
    (handleResult ev s).hasRecognizer = s.hasRecognizer ∧
    (handleResult ev s).startedCount = s.startedCount := by
  refine ⟨?_, rfl, rfl, rfl, rfl, rfl, rfl⟩
  simp [handleResult]
  exact processResults_fst_of_no_final _ _ _ h

theorem interim_results_only_touch_status_witness :
    (∀ r ∈ (([⟨"partial guess", false⟩] : List SpeechRes).drop 0),
        r.isFinal = false) ∧
    (handleResult ⟨0, [⟨"partial guess", false⟩]⟩ initState).transcribedText
      = initState.transcribedText :=
  ⟨by decide,
   (interim_results_only_touch_status ⟨0, [⟨"partial guess", false⟩]⟩
      initState (by decide)).1⟩

/-- C8: `clearText` empties the transcript and the status from any state
and changes no other field. -/
theorem clearText_resets_transcript_and_status (s : AppState) :
    (clearText s).transcribedText = "" ∧
    (clearText s).status = "" ∧
    (clearText s).isRecording = s.isRecording ∧
    (clearText s).isPaused = s.isPaused ∧
    (clearText s).selectedLanguage = s.selectedLanguage ∧
    (clearText s).selectedAPI = s.selectedAPI ∧
    (clearText s).hasRecognizer = s.hasRecognizer ∧
    (clearText s).startedCount = s.startedCount :=
  ⟨rfl, rfl, rfl, rfl, rfl, rfl, rfl, rfl⟩

/-- C9: before any recording has ever been started the recognizer ref is
still null, and then `stopRecording` and `pauseRecording` are both exact
no-ops on the whole state. -/
theorem stop_pause_noop_without_recognizer (s : AppState)
    (h : s.hasRecognizer = false) :
    stopRecording s = s ∧ pauseRecording s = s := by
  constructor
  · simp [stopRecording, h]
  · simp [pauseRecording, h]

theorem stop_pause_noop_without_recognizer_witness :
    initState.hasRecognizer = false ∧
    stopRecording initState = initState ∧ pauseRecording initState = initState :=
  ⟨rfl, stop_pause_noop_without_recognizer initState rfl⟩

/-- C10: `copyToClipboard` performs no emptiness check: for every state
it hands exactly the current transcript to the clipboard collaborator,
sets the copied confirmation status, and leaves the transcript and the
recording flags (and every other field) unchanged. -/
theorem copyToClipboard_passes_transcript_unchecked (s : AppState) :
    (copyToClipboard s).2 = s.transcribedText ∧
    (copyToClipboard s).1.status = "📋 Copied to clipboard!" ∧
    (copyToClipboard s).1.transcribedText = s.transcribedText ∧
    (copyToClipboard s).1.isRecording = s.isRecording ∧
    (copyToClipboard s).1.isPaused = s.isPaused ∧
    (copyToClipboard s).1.selectedLanguage = s.selectedLanguage ∧
    (copyToClipboard s).1.selectedAPI = s.selectedAPI ∧
    (copyToClipboard s).1.hasRecognizer = s.hasRecognizer ∧
    (copyToClipboard s).1.startedCount = s.startedCount :=
  ⟨rfl, rfl, rfl, rfl, rfl, rfl, rfl, rfl, rfl⟩

/-- C5: a start request made while `recordingState = Recording` is
rejected by the Start button's `disabled={isRecording}` gate: the state
(in particular `startedCount`, so no second recognition call is started)
is completely unchanged. -/
theorem start_while_recording_is_noop (s : AppState)
    (h : recordingState s = RecState.Recording) :
    startClick s = s := by
  have hrec : s.isRecording = true := by
    by_cases hp : s.isPaused
    · simp [recordingState, hp] at h
    · by_cases hr : s.isRecording
      · exact hr
      · simp [recordingState, hp, hr] at h
  simp [startClick, hrec]

theorem start_while_recording_is_noop_witness :
    recordingState (startRecording initState) = RecState.Recording ∧
    startClick (startRecording initState) = startRecording initState :=
  ⟨by decide, start_while_recording_is_noop (startRecording initState) (by decide)⟩

/-- C6: a recognition failure while actively recording is surfaced in
`statusMessage` by `onerror` without touching the transcript, and the
`onend` event the recognizer fires after every error returns the session
to `recordingState = Idle` — it is never left in `Recording`. -/
theorem recognition_error_reported_and_returns_idle (s : AppState)
    (e : String) (hp : s.isPaused = false) :
    (handleError e s).status = "❌ Error: " ++ e ∧
    (handleError e s).transcribedText = s.transcribedText ∧
    recordingState (handleEnd (handleError e s)) = RecState.Idle := by
  refine ⟨rfl, rfl, ?_⟩
  simp [recordingState, handleEnd, handleError, hp]

theorem recognition_error_reported_and_returns_idle_witness :
    (startRecording initState).isPaused = false ∧
    (handleError "no-speech" (startRecording initState)).status
      = "❌ Error: " ++ "no-speech" ∧
    recordingState (handleEnd (handleError "no-speech" (startRecording initState)))
      = RecState.Idle :=
  ⟨rfl,
   (recognition_error_reported_and_returns_idle (startRecording initState)
      "no-speech" rfl).1,
   (recognition_error_reported_and_returns_idle (startRecording initState)
      "no-speech" rfl).2.2⟩

/-- C7: along any click sequence from the initial state, a state with
`recordingState = Paused` is only ever reached from `Recording` (or by
idling in `Paused`); there is no direct Idle→Paused transition. -/
theorem paused_only_entered_from_recording (s : AppState)
    (_hreach : ClickReachable s) (c : ClickOp)
    (hp : recordingState (clickStep c s) = RecState.Paused) :
    recordingState s = RecState.Recording ∨ recordingState s = RecState.Paused := by
  by_cases hpau : s.isPaused
  · right; simp [recordingState, hpau]
  · by_cases hrec : s.isRecording
    · left; simp [recordingState, hpau, hrec]
    · exfalso
      cases c <;>
        simp [clickStep, startClick, pauseClick, stopClick, startRecording,
          handleStart, recordingState, hpau, hrec] at hp

theorem paused_only_entered_from_recording_witness :
    recordingState (clickStep ClickOp.pause (clickStep ClickOp.start initState))
      = RecState.Paused ∧
    (recordingState (clickStep ClickOp.start initState) = RecState.Recording ∨
     recordingState (clickStep ClickOp.start initState) = RecState.Paused) :=
  ⟨by decide,
   paused_only_entered_from_recording (clickStep ClickOp.start initState)
     (ClickReachable.step ClickOp.start ClickReachable.init)
     ClickOp.pause (by decide)⟩

/-- C2: exporting an empty or whitespace-only transcript sets the
user-visible "No text to save" error status, produces no output file,
and leaves every other field of the state — in particular the transcript
and the recording flags — unchanged. -/
theorem export_blank_transcript_fails (s : AppState) (iso : String)
    (h : ∀ c ∈ s.transcribedText.data, isJsWhitespace c = true) :
    saveToFile iso s = ({ s with status := "⚠️ No text to save" }, none) := by
  simp [saveToFile, jsTrim_eq_empty_of_whitespace _ h]

theorem export_blank_transcript_fails_witness :
    (∀ c ∈ (AppState.transcribedText
        { initState with transcribedText := "   " }).data,
      isJsWhitespace c = true) ∧
    saveToFile "2026-10-12T14:23:05.123Z"
        { initState with transcribedText := "   " }
      = ({ initState with
            transcribedText := "   "
            status := "⚠️ No text to save" }, none) :=
  ⟨by decide, export_blank_transcript_fails _ _ (by decide)⟩

/-- C3 counterexample: with transcript `"hello world"` and clock reading
`2026-10-12T14:23:05.123Z`, the code produces filename
`transcription_2026-10-12T14-23-05.txt`, which does not match the
claimed pattern (eight digits, underscore, six digits). -/
theorem export_filename_not_claim_pattern :
    (saveToFile "2026-10-12T14:23:05.123Z"
        { initState with transcribedText := "hello world" }).2
      = some ("transcription_2026-10-12T14-23-05.txt",
              utf8Encode "hello world") ∧
    matchesPattern claimPattern "transcription_2026-10-12T14-23-05.txt"
      = false := by
  exact ⟨rfl, rfl⟩

/-- C3 amended: for every non-blank transcript and every clock reading of
the ISO form `YYYY-MM-DDTHH:MM:SS…`, the export produces the saved
status, a filename `transcription_` ++ the first 19 timestamp characters
with colons replaced by hyphens ++ `.txt` — matching
`transcription_\d\x7b4\x7d-\d\x7b2\x7d-\d\x7b2\x7dT\d\x7b2\x7d-\d\x7b2\x7d-\d\x7b2\x7d\.txt`
— and byte content exactly the UTF-8 encoding of the transcript. -/
theorem export_nonblank_filename_and_bytes (s : AppState)
    (y1 y2 y3 y4 mo1 mo2 d1 d2 h1 h2 mi1 mi2 se1 se2 : Char)
    (rest : List Char)
    (hdig : ([y1, y2, y3, y4, mo1, mo2, d1, d2, h1, h2, mi1, mi2,
        se1, se2].all Char.isDigit) = true)
    (ht : jsTrim s.transcribedText ≠ "") :
    saveToFile
        (String.mk ([y1, y2, y3, y4, '-', mo1, mo2, '-', d1, d2, 'T',
          h1, h2, ':', mi1, mi2, ':', se1, se2] ++ rest)) s
      = ({ s with status := "✅ File saved!" },
         some ("transcription_" ++
                 String.mk [y1, y2, y3, y4, '-', mo1, mo2, '-', d1, d2, 'T',
                   h1, h2, '-', mi1, mi2, '-', se1, se2] ++ ".txt",
               utf8Encode s.transcribedText)) ∧
    matchesPattern codePattern
        ("transcription_" ++
          String.mk [y1, y2, y3, y4, '-', mo1, mo2, '-', d1, d2, 'T',
            h1, h2, '-', mi1, mi2, '-', se1, se2] ++ ".txt") = true := by
  simp only [List.all_cons, List.all_nil, Bool.and_eq_true, Bool.and_true] at hdig
  obtain ⟨hy1, hy2, hy3, hy4, hmo1, hmo2, hd1, hd2, hh1, hh2, hmi1, hmi2,
    hse1, hse2⟩ := hdig
  have hcd : ∀ c : Char, c.isDigit = true → colonToDash c = c := by
    intro c hc
    unfold colonToDash
    rcases eq_or_ne c ':' with hceq | hcne
    · subst hceq; exact absurd hc (by decide)
    · simp [hcne]
  have hts : jsTimestamp
      (String.mk ([y1, y2, y3, y4, '-', mo1, mo2, '-', d1, d2, 'T',
        h1, h2, ':', mi1, mi2, ':', se1, se2] ++ rest))
      = String.mk [y1, y2, y3, y4, '-', mo1, mo2, '-', d1, d2, 'T',
          h1, h2, '-', mi1, mi2, '-', se1, se2] := by
    unfold jsTimestamp
    rw [show ((String.mk ([y1, y2, y3, y4, '-', mo1, mo2, '-', d1, d2, 'T',
        h1, h2, ':', mi1, mi2, ':', se1, se2] ++ rest)).data.take 19)
      = [y1, y2, y3, y4, '-', mo1, mo2, '-', d1, d2, 'T',
          h1, h2, ':', mi1, mi2, ':', se1, se2] from rfl]
    simp only [List.map_cons, List.map_nil]
    simp only [show colonToDash ':' = '-' from rfl,
      show colonToDash '-' = '-' from rfl, show colonToDash 'T' = 'T' from rfl,
      hcd _ hy1, hcd _ hy2, hcd _ hy3, hcd _ hy4, hcd _ hmo1, hcd _ hmo2,
      hcd _ hd1, hcd _ hd2, hcd _ hh1, hcd _ hh2, hcd _ hmi1, hcd _ hmi2,
      hcd _ hse1, hcd _ hse2]
  constructor
  · unfold saveToFile
    rw [if_neg ht, hts]
  · unfold matchesPattern
    rw [show ("transcription_" ++
          String.mk [y1, y2, y3, y4, '-', mo1, mo2, '-', d1, d2, 'T',
            h1, h2, '-', mi1, mi2, '-', se1, se2] ++ ".txt").data
        = "transcription_".data ++
            ([y1, y2, y3, y4] ++ (['-'] ++ ([mo1, mo2] ++ (['-'] ++
              ([d1, d2] ++ (['T'] ++ ([h1, h2] ++ (['-'] ++ ([mi1, mi2] ++
              (['-'] ++ ([se1, se2] ++
                (".txt".data ++ ([] : List Char))))))))))))) from rfl]
    rw [show codePattern
        = ("transcription_".data.map PatC.lit) ++
            (digitsPat ([y1, y2, y3, y4] : List Char).length ++
              ((['-'] : List Char).map PatC.lit ++
                (digitsPat ([mo1, mo2] : List Char).length ++
                  ((['-'] : List Char).map PatC.lit ++
                    (digitsPat ([d1, d2] : List Char).length ++
                      ((['T'] : List Char).map PatC.lit ++
                        (digitsPat ([h1, h2] : List Char).length ++
                          ((['-'] : List Char).map PatC.lit ++
                            (digitsPat ([mi1, mi2] : List Char).length ++
                              ((['-'] : List Char).map PatC.lit ++
                                (digitsPat ([se1, se2] : List Char).length ++
                                  ((".txt".data.map PatC.lit) ++
                                    ([] : List PatC))))))))))))) from rfl]
    rw [matchPatChars_lit_append,
        matchPatChars_digits_append _ _ _ (by simp [hy1, hy2, hy3, hy4]),
        matchPatChars_lit_append,
        matchPatChars_digits_append _ _ _ (by simp [hmo1, hmo2]),
        matchPatChars_lit_append,
        matchPatChars_digits_append _ _ _ (by simp [hd1, hd2]),
        matchPatChars_lit_append,
        matchPatChars_digits_append _ _ _ (by simp [hh1, hh2]),
        matchPatChars_lit_append,
        matchPatChars_digits_append _ _ _ (by simp [hmi1, hmi2]),
        matchPatChars_lit_append,
        matchPatChars_digits_append _ _ _ (by simp [hse1, hse2]),
        matchPatChars_lit_append]
    rfl

theorem export_nonblank_filename_and_bytes_witness :
    (([('2' : Char), '0', '2', '6', '1', '0', '1', '2', '1', '4', '2', '3',
        '0', '5'].all Char.isDigit) = true) ∧
    jsTrim (AppState.transcribedText
        { initState with transcribedText := "hello world" }) ≠ "" ∧
    matchesPattern codePattern
        ("transcription_" ++
          String.mk ['2', '0', '2', '6', '-', '1', '0', '-', '1', '2', 'T',
            '1', '4', '-', '2', '3', '-', '0', '5'] ++ ".txt") = true :=
  ⟨by decide, by decide,
   (export_nonblank_filename_and_bytes
      { initState with transcribedText := "hello world" }
      '2' '0' '2' '6' '1' '0' '1' '2' '1' '4' '2' '3' '0' '5'
      ".123Z".data (by decide) (by decide)).2⟩

end SpeechReco
